import Mathlib

/-!
Verification of the scoped, cached, composable GL state-guard system
(`src/gl/settings.rs`, `src/gl/texture.rs`, `src/gl/data_buffer.rs`,
`src/gl/gl.rs`).

The embedding models the WebGL context as a trace of issued calls
(`GlCall`), the `SettingsCache` as a record, and the per-texture filter
`Cell` as a map from texture handles to filters carried in `GlState`.
Work closures are continuations `GlState → Outcome R`; a `result` of
`none` models a Rust panic unwinding out of the closure (the statements
after the call do not run, which is exactly how the Rust code behaves:
restoration is written as plain statements after `callback()`).
-/

namespace Rwgl

/-- WebGL numeric constant `Context::BLEND`. -/
def GL_BLEND : Nat := 0x0BE2

/-- WebGL numeric constant `Context::DEPTH_TEST`. -/
def GL_DEPTH_TEST : Nat := 0x0B71

/-- WebGL numeric constant `Context::TEXTURE0`. -/
def GL_TEXTURE0 : Nat := 0x84C0

/-- WebGL numeric constant `Context::ARRAY_BUFFER`. -/
def GL_ARRAY_BUFFER : Nat := 0x8892

/-- WebGL numeric constant `Context::TEXTURE_MAG_FILTER`. -/
def GL_TEXTURE_MAG_FILTER : Nat := 0x2800

/-- WebGL numeric constant `Context::TEXTURE_MIN_FILTER`. -/
def GL_TEXTURE_MIN_FILTER : Nat := 0x2801

/-- WebGL numeric constant `Context::NEAREST`. -/
def GL_NEAREST : Nat := 0x2600

/-- WebGL numeric constant `Context::LINEAR`. -/
def GL_LINEAR : Nat := 0x2601

/-- The `TextureFilter` enum from `texture.rs`. -/
inductive TextureFilter
  | nearest
  | linear
deriving DecidableEq, Repr

/-- Numeric value of a `TextureFilter` (its `#[repr(i32)]` discriminant). -/
def TextureFilter.toValue : TextureFilter → Nat
  | .nearest => GL_NEAREST
  | .linear => GL_LINEAR

/-- The `TextureType` enum from `texture.rs`. -/
inductive TextureType
  | byte
  | float
deriving DecidableEq, Repr

/-- Numeric value of a `TextureType`. -/
def TextureType.toValue : TextureType → Nat
  | .byte => 0x1401
  | .float => 0x1406

/-- The `TextureFormat` enum from `texture.rs`. -/
inductive TextureFormat
  | alpha
  | luminance
  | luminanceAlpha
  | rgb
  | rgba
deriving DecidableEq, Repr

/-- Numeric value of a `TextureFormat`. -/
def TextureFormat.toValue : TextureFormat → Nat
  | .alpha => 0x1906
  | .luminance => 0x1909
  | .luminanceAlpha => 0x190A
  | .rgb => 0x1907
  | .rgba => 0x1908

/-- The `BufferUsage` enum from `data_buffer.rs`. -/
inductive BufferUsage
  | stream
  | static
  | dynamic
deriving DecidableEq, Repr

/-- Numeric value of a `BufferUsage`. -/
def BufferUsage.toValue : BufferUsage → Nat
  | .stream => 0x88E0
  | .static => 0x88E4
  | .dynamic => 0x88E8

/-- `ArrayBuffer` from `data_buffer.rs`: a wrapper around a context-side
buffer handle (`ArrayBufferData.handle`). The `gl` back-reference is the
ambient context and carries no data relevant to the claims. Handles are
modelled as `Nat`; two `WebGlBuffer` JS values are equal exactly when they
are the same context-side object. -/
structure ArrayBuffer where
  handle : Nat
deriving DecidableEq, Repr

/-- The `impl PartialEq for ArrayBuffer`: compares only `data.handle`. -/
def ArrayBuffer.eqByHandle (a b : ArrayBuffer) : Bool :=
  a.handle == b.handle

/-- `Texture` / `TextureInfo` from `texture.rs`: context-side handle plus
cached metadata. The mutable `filter: Cell<TextureFilter>` is modelled
separately, in `GlState.filters`, keyed by the handle (all `Rc` clones of
one `TextureInfo` share one cell, and distinct live textures have distinct
handles). -/
structure Texture where
  handle : Nat
  width : Nat
  height : Nat
  data_type : TextureType
  format : TextureFormat
deriving DecidableEq, Repr

/-- The `impl PartialEq<TextureInfo> for TextureInfo`: compares only
`handle`, ignoring width, height, data type, format and filter. -/
def Texture.eqByHandle (a b : Texture) : Bool :=
  a.handle == b.handle

/-- The derived `PartialEq` on `Option<Texture>` (payload of
`TextureSetting.texture`): `None == None`, and `Some` compares inner
textures by the handle-based `PartialEq` above. -/
def optTextureEq : Option Texture → Option Texture → Bool
  | none, none => true
  | some a, some b => Texture.eqByHandle a b
  | _, _ => false

/-- The derived `PartialEq` on `TextureSetting` (field-wise: `index`, then
the optional texture by handle). -/
def textureSettingEq (i1 : Nat) (t1 : Option Texture) (i2 : Nat) (t2 : Option Texture) : Bool :=
  i1 == i2 && optTextureEq t1 t2

/-- The derived `PartialEq` on `ArrayBufferSetting` (an
`Option<ArrayBuffer>`), with `ArrayBuffer` compared by handle. -/
def arrayBufferSettingEq : Option ArrayBuffer → Option ArrayBuffer → Bool
  | none, none => true
  | some a, some b => ArrayBuffer.eqByHandle a b
  | _, _ => false

/-- `TextureContent` from `texture.rs`. `Image` carries an
`HtmlImageElement` (opaque here); `Bytes` carries a byte vector, modelled
by its length. -/
inductive TextureContent
  | none
  | image
  | bytes (len : Nat)
deriving DecidableEq, Repr

/-- `SettingsCache` from `settings.rs`: one slot per tracked aspect.
The Rust fields hold the newtype wrappers (`BlendSetting(bool)` etc.);
here each slot holds the payload directly. `textures` models the
fixed-size array `[Option<Texture>; 16]` as a list (of length 16 in any
cache produced by `Gl::new`); indexing it out of range is the Rust
panic on slot access. -/
structure SettingsCache where
  blend : Bool
  depth : Bool
  active_texture : Nat
  array_buffer : Option ArrayBuffer
  textures : List (Option Texture)
deriving DecidableEq, Repr

/-- The derived `Default` for `SettingsCache`: `false`, `false`, `0`,
`None`, and `[None; 16]`. -/
def SettingsCache.default : SettingsCache :=
  { blend := false
    depth := false
    active_texture := 0
    array_buffer := none
    textures := List.replicate 16 none }

/-- The mutable state reachable from a `Gl` handle: the `RefCell`ed
settings cache, plus every texture's filter `Cell` (keyed by texture
handle). -/
structure GlState where
  cache : SettingsCache
  filters : Nat → TextureFilter

/-- One imperative call issued to the `WebGlRenderingContext`
collaborator. Traces of these are what "calls to the context" means. -/
inductive GlCall
  | enable (cap : Nat)
  | disable (cap : Nat)
  | active_texture (unit : Nat)
  | bind_buffer (target : Nat) (handle : Option Nat)
  | bind_texture (target : Nat) (handle : Option Nat)
  | tex_parameteri (target : Nat) (pname : Nat) (value : Nat)
  | buffer_data (target : Nat) (len : Nat) (usage : Nat)
  | tex_image_2d (target : Nat) (level : Nat) (internalformat : Nat)
      (size : Option (Nat × Nat)) (format : Nat) (data_type : Nat) (hasData : Bool)
  | create_texture (handle : Nat)
deriving DecidableEq, Repr

/-- Result of running a stateful computation: the final state, the list of
context calls issued (in order), and either the returned value or `none`
for a Rust panic unwinding out of the computation. -/
structure Outcome (R : Type) where
  state : GlState
  calls : List GlCall
  result : Option R

/-- A work closure (`FnOnce() -> R` capturing the ambient `Gl`): it may
mutate the state, issue context calls, and return or panic. -/
def Kont (R : Type) : Type := GlState → Outcome R

/-- The four setting types whose `Settings::apply` is the generic
`impl<T: CachedSettings> Settings for T` executor: `BlendSetting`,
`DepthTestSetting`, `ActiveTextureSetting`, `ArrayBufferSetting`.
Derived equality coincides with the Rust derived `PartialEq` of each
(for `arrayBuffer` because `ArrayBuffer` equality is handle equality). -/
inductive CachedSetting
  | blend (value : Bool)
  | depthTest (value : Bool)
  | activeTexture (index : Nat)
  | arrayBuffer (buffer : Option ArrayBuffer)
deriving DecidableEq, Repr

/-- The `CachedSettings::set` implementations: the context calls issued
for a value. `BlendSetting`/`DepthTestSetting` enable or disable their
capability; `ActiveTextureSetting` selects `TEXTURE0 + index`;
`ArrayBufferSetting` binds the optional handle to `ARRAY_BUFFER`. -/
def CachedSetting.setCalls : CachedSetting → List GlCall
  | .blend v => if v then [.enable GL_BLEND] else [.disable GL_BLEND]
  | .depthTest v => if v then [.enable GL_DEPTH_TEST] else [.disable GL_DEPTH_TEST]
  | .activeTexture i => [.active_texture (i + GL_TEXTURE0)]
  | .arrayBuffer b => [.bind_buffer GL_ARRAY_BUFFER (b.map ArrayBuffer.handle)]

/-- The `CachedSettings::get_cached` implementations: a pure read of the
aspect's slot. -/
def CachedSetting.get_cached : CachedSetting → SettingsCache → CachedSetting
  | .blend _, c => .blend c.blend
  | .depthTest _, c => .depthTest c.depth
  | .activeTexture _, c => .activeTexture c.active_texture
  | .arrayBuffer _, c => .arrayBuffer c.array_buffer

/-- The `CachedSettings::set_cached` implementations: a pure write of the
aspect's slot. -/
def CachedSetting.set_cached : CachedSetting → SettingsCache → SettingsCache
  | .blend v, c => { c with blend := v }
  | .depthTest v, c => { c with depth := v }
  | .activeTexture i, c => { c with active_texture := i }
  | .arrayBuffer b, c => { c with array_buffer := b }

/-- Which slot a cached setting addresses, ignoring its payload. -/
def CachedSetting.kind : CachedSetting → Nat
  | .blend _ => 0
  | .depthTest _ => 1
  | .activeTexture _ => 2
  | .arrayBuffer _ => 3

/-- The shared scope executor, `fn apply` of
`impl<T: CachedSettings> Settings for T` (settings.rs lines 69-82):
read `old_value`; if the requested value equals it, run the callback
directly; otherwise write the cache, issue `set`, run the callback, and
(only if the callback returns normally — the restore lines are plain
statements after `callback()`) issue `set(old_value)` and write the old
value back. -/
def applyCached {R : Type} (s : CachedSetting) (st : GlState) (k : Kont R) : Outcome R :=
  let old := s.get_cached st.cache
  if s = old then
    k st
  else
    let o := k { st with cache := s.set_cached st.cache }
    match o.result with
    | none =>
        { state := o.state, calls := s.setCalls ++ o.calls, result := none }
    | some r =>
        { state := { o.state with cache := old.set_cached o.state.cache }
          calls := s.setCalls ++ o.calls ++ old.setCalls
          result := some r }

/-- `TextureSetting::apply` (settings.rs lines 190-200): read the previous
slot value (`cache.borrow().textures[self.index as usize]` — panics when
`index >= 16`, before any mutation or context call), write the new value
into the slot, issue `bind_texture(TEXTURE0 + index, handle)`, run the
callback, then (on normal return only) rebind the previous texture and
write it back. There is no equality short-circuit in this impl. -/
def applyTexture {R : Type} (index : Nat) (texture : Option Texture) (st : GlState) (k : Kont R) : Outcome R :=
  match st.cache.textures[index]? with
  | none => { state := st, calls := [], result := none }
  | some previous =>
    let o := k { st with cache := { st.cache with textures := st.cache.textures.set index texture } }
    let bindNew := GlCall.bind_texture (GL_TEXTURE0 + index) (texture.map Texture.handle)
    match o.result with
    | none =>
        { state := o.state, calls := bindNew :: o.calls, result := none }
    | some r =>
        { state := { o.state with
            cache := { o.state.cache with
              textures := o.state.cache.textures.set index previous } }
          calls := bindNew ::
            (o.calls ++ [GlCall.bind_texture (GL_TEXTURE0 + index) (previous.map Texture.handle)])
          result := some r }

/-- `Texture::filter`: reads the texture's filter `Cell`. -/
def Texture.filter (t : Texture) (st : GlState) : TextureFilter :=
  st.filters t.handle

/-- Write a texture's filter `Cell` (`self.data.filter.set(filter)`). -/
def setFilterCell (h : Nat) (f : TextureFilter) (st : GlState) : GlState :=
  { st with filters := fun h2 => if h2 = h then f else st.filters h2 }

/-- `Texture::set_filter` (texture.rs lines 175-188): if the requested
filter differs from the cached cell, apply `Gl::settings().texture(0,
self.clone())` (an `EmptySetting` composed with a `TextureSetting`, the
empty part forwarding directly) around a closure issuing the two
`tex_parameteri` calls and updating the cell; otherwise do nothing. -/
def Texture.set_filter (t : Texture) (filter : TextureFilter) (st : GlState) : Outcome Unit :=
  if t.filter st ≠ filter then
    applyTexture 0 (some t) st (fun st1 =>
      { state := setFilterCell t.handle filter st1
        calls := [GlCall.tex_parameteri GL_TEXTURE0 GL_TEXTURE_MAG_FILTER filter.toValue,
                  GlCall.tex_parameteri GL_TEXTURE0 GL_TEXTURE_MIN_FILTER filter.toValue]
        result := some () })
  else
    { state := st, calls := [], result := some () }

/-- The closed set of `Settings` implementors from `settings.rs`:
`EmptySetting`, the four `CachedSettings` types, `TextureSetting`,
`TextureFilterSetting`, and `ComposedSetting`. -/
inductive Setting
  | empty
  | cached (s : CachedSetting)
  | textureSetting (index : Nat) (texture : Option Texture)
  | textureFilterSetting (texture : Texture) (filter : TextureFilter)
  | composed (first second : Setting)
deriving Repr

/-- `Settings::apply`, per implementor. `EmptySetting` forwards.
`ComposedSetting(S1, S2).apply` is `s1.apply(gl, cache, || s2.apply(gl,
cache, callback))`. `TextureFilterSetting::apply` reads the previous
filter, calls `set_filter(new)`, runs the callback, and calls
`set_filter(previous)` — with a panic at any point propagating and
skipping the remaining statements. -/
def Setting.apply {R : Type} : Setting → GlState → Kont R → Outcome R
  | .empty, st, k => k st
  | .cached s, st, k => applyCached s st k
  | .textureSetting i t, st, k => applyTexture i t st k
  | .textureFilterSetting t f, st, k =>
    let previous := t.filter st
    let o1 := t.set_filter f st
    match o1.result with
    | none => { state := o1.state, calls := o1.calls, result := none }
    | some _ =>
      let o := k o1.state
      match o.result with
      | none => { state := o.state, calls := o1.calls ++ o.calls, result := none }
      | some r =>
        let o2 := t.set_filter previous o.state
        match o2.result with
        | none => { state := o2.state, calls := o1.calls ++ o.calls ++ o2.calls, result := none }
        | some _ => { state := o2.state, calls := o1.calls ++ o.calls ++ o2.calls, result := some r }
  | .composed s1 s2, st, k => s1.apply st (fun st1 => s2.apply st1 k)

/-- `Gl::settings()`: the empty base setting. -/
def Gl.settings : Setting := .empty

/-- The `Settings::blend` chaining combinator. -/
def Setting.blend (s : Setting) (value : Bool) : Setting :=
  .composed s (.cached (.blend value))

/-- The `Settings::depth_test` chaining combinator. -/
def Setting.depth_test (s : Setting) (value : Bool) : Setting :=
  .composed s (.cached (.depthTest value))

/-- The `Settings::texture` chaining combinator. -/
def Setting.texture (s : Setting) (index : Nat) (t : Texture) : Setting :=
  .composed s (.textureSetting index (some t))

/-- The `Settings::texture_filter` chaining combinator. -/
def Setting.texture_filter (s : Setting) (t : Texture) (f : TextureFilter) : Setting :=
  .composed s (.textureFilterSetting t f)

/-- The `Settings::array_buffer` chaining combinator. -/
def Setting.array_buffer (s : Setting) (b : ArrayBuffer) : Setting :=
  .composed s (.cached (.arrayBuffer (some b)))

/-- `Gl::new`: the state held by a freshly constructed context wrapper.
The settings cache is `Default::default()`; `filters` is the ambient
filter-cell store (no textures exist yet, so its contents are
arbitrary). -/
def Gl.new (filters : Nat → TextureFilter) : GlState :=
  { cache := SettingsCache.default, filters := filters }

/-- `ArrayBuffer::write` (data_buffer.rs lines 77-91): run the upload
call (`buffer_data_with_u8_array(ARRAY_BUFFER, bytes, usage)`, the byte
slice modelled by its length) under
`Gl::settings().array_buffer(self.clone())`. -/
def ArrayBuffer.write (b : ArrayBuffer) (len : Nat) (usage : BufferUsage) (st : GlState) : Outcome Unit :=
  (Gl.settings.array_buffer b).apply st (fun st1 =>
    { state := st1
      calls := [GlCall.buffer_data GL_ARRAY_BUFFER len usage.toValue]
      result := some () })

/-- `Texture::new` (texture.rs lines 87-148): create the context-side
handle (modelled as the given fresh `handle`), build the wrapper with a
default (`Linear`) filter cell, and issue the initial `tex_image_2d`
upload under `Gl::settings().texture(0, result.clone())`. The upload
call's arguments depend on the content variant exactly as in the three
`match` arms. -/
def Texture.new (handle width height : Nat) (data_type : TextureType) (format : TextureFormat)
    (data : TextureContent) (st : GlState) : Outcome Texture :=
  let result : Texture :=
    { handle := handle, width := width, height := height, data_type := data_type, format := format }
  let st0 := setFilterCell handle TextureFilter.linear st
  let o := (Gl.settings.texture 0 result).apply st0 (fun st1 =>
    { state := st1
      calls := [match data with
        | .none =>
            GlCall.tex_image_2d GL_TEXTURE0 0 format.toValue (some (width, height))
              format.toValue data_type.toValue false
        | .image =>
            GlCall.tex_image_2d GL_TEXTURE0 0 format.toValue none
              format.toValue data_type.toValue true
        | .bytes _ =>
            GlCall.tex_image_2d GL_TEXTURE0 0 format.toValue (some (width, height))
              format.toValue data_type.toValue true]
      result := some () })
  { state := o.state
    calls := GlCall.create_texture handle :: o.calls
    result := o.result.map (fun _ => result) }

/-! ### Derived predicates used to state the claims -/

/-- A work closure is cache-preserving when, on every normal return, it
leaves the `SettingsCache` exactly as it found it. Every closure built
from the crate's public API has this property (the cache is a private
field of `GlInfo`; closures can touch it only through `Gl::apply`,
`set_filter`, `write` and `Texture::new`, all of which restore it on
normal return). -/
def cachePreserving {R : Type} (k : Kont R) : Prop :=
  ∀ st, ((k st).result).isSome = true → (k st).state.cache = st.cache

/-- The setting is built only from `EmptySetting`, the four cache-backed
(`CachedSettings`) aspects and composition, and every aspect's requested
value equals the cache's current value for that aspect. -/
def matchesCache : Setting → SettingsCache → Prop
  | .empty, _ => True
  | .cached s, c => s = s.get_cached c
  | .textureSetting _ _, _ => False
  | .textureFilterSetting _ _, _ => False
  | .composed s1 s2, c => matchesCache s1 c ∧ matchesCache s2 c

/-! ### Helper lemmas -/

/-- Writing an aspect's just-read value back into a cache it was written
over restores the cache exactly. -/
theorem set_cached_get_cached (s : CachedSetting) (c : SettingsCache) :
    (s.get_cached c).set_cached (s.set_cached c) = c := by
  cases s <;> rfl

/-- Writing one aspect's slot does not change what a different aspect
reads. -/
theorem get_cached_set_cached_of_kind_ne (a b : CachedSetting) (c : SettingsCache)
    (h : a.kind ≠ b.kind) : b.get_cached (a.set_cached c) = b.get_cached c := by
  cases a <;> cases b <;> first
    | rfl
    | exact absurd rfl h

/-- Setting a list index to the value already stored there is the
identity. -/
theorem list_set_self {α : Type} (l : List α) (i : Nat) (a : α)
    (h : l[i]? = some a) : l.set i a = l := by
  induction l generalizing i with
  | nil => simp at h
  | cons x xs ih =>
    cases i with
    | zero =>
      simp at h
      simp [List.set, h]
    | succ j =>
      simp at h
      simp [List.set, ih j h]

/-- The generic cached executor restores the cache on normal return (for
a cache-preserving closure) and returns a value the closure returned. -/
theorem applyCached_restores {R : Type} (s : CachedSetting) (st : GlState) (k : Kont R)
    (hk : cachePreserving k) (r : R) (h : (applyCached s st k).result = some r) :
    (applyCached s st k).state.cache = st.cache ∧ ∃ stMid, (k stMid).result = some r := by
  rw [applyCached] at h ⊢
  by_cases heq : s = s.get_cached st.cache
  · rw [if_pos heq] at h ⊢
    refine ⟨hk st ?_, st, h⟩
    rw [h]
    rfl
  · rw [if_neg heq] at h ⊢
    cases ho : (k { st with cache := s.set_cached st.cache }).result with
    | none =>
      simp only [ho] at h
      exact Option.noConfusion h
    | some r0 =>
      simp only [ho] at h ⊢
      refine ⟨?_, { st with cache := s.set_cached st.cache }, by rw [ho, h]⟩
      have hc := hk { st with cache := s.set_cached st.cache } (by rw [ho]; rfl)
      simp only [hc]
      exact set_cached_get_cached s st.cache

/-- `TextureSetting::apply` restores the texture slot (hence the whole
cache, for a cache-preserving closure) on normal return, and returns a
value the closure returned. -/
theorem applyTexture_restores {R : Type} (i : Nat) (t : Option Texture) (st : GlState) (k : Kont R)
    (hk : cachePreserving k) (r : R) (h : (applyTexture i t st k).result = some r) :
    (applyTexture i t st k).state.cache = st.cache ∧ ∃ stMid, (k stMid).result = some r := by
  rw [applyTexture] at h ⊢
  cases hprev : st.cache.textures[i]? with
  | none =>
    simp only [hprev] at h
    exact Option.noConfusion h
  | some previous =>
    simp only [hprev] at h ⊢
    cases ho : (k { st with cache := { st.cache with textures := st.cache.textures.set i t } }).result with
    | none =>
      simp only [ho] at h
      exact Option.noConfusion h
    | some r0 =>
      simp only [ho] at h ⊢
      refine ⟨?_, _, by rw [ho, h]⟩
      have hc := hk { st with cache := { st.cache with textures := st.cache.textures.set i t } }
        (by rw [ho]; rfl)
      simp only [hc, List.set_set, list_set_self _ _ _ hprev]

/-- `Texture::set_filter` leaves the settings cache unchanged on normal
return (it only enters and exits a texture-binding scope at unit 0 and
writes the per-texture filter cell). -/
theorem set_filter_preserves_cache (t : Texture) (f : TextureFilter) (st : GlState)
    (h : ((t.set_filter f st).result).isSome = true) :
    (t.set_filter f st).state.cache = st.cache := by
  rw [Texture.set_filter] at h ⊢
  by_cases hne : t.filter st ≠ f
  · rw [if_pos hne] at h ⊢
    obtain ⟨u, hu⟩ := Option.isSome_iff_exists.mp h
    exact (applyTexture_restores 0 (some t) st _ (fun st1 _ => rfl) u hu).1
  · rw [if_neg hne] at h ⊢

/-- Restoration law, proved for every `Settings` implementor at once: if
the work closure is cache-preserving (as every closure built from the
public API is) and `apply` returns normally, the settings cache after
`apply` equals the pre-call cache, and the returned value is a value the
work closure returned. -/
theorem apply_restores_cache {R : Type} (s : Setting) :
    ∀ (k : Kont R), cachePreserving k → ∀ (st : GlState) (r : R),
      (s.apply st k).result = some r →
      (s.apply st k).state.cache = st.cache ∧ ∃ stMid, (k stMid).result = some r := by
  induction s with
  | empty =>
    intro k hk st r h
    simp only [Setting.apply] at h ⊢
    exact ⟨hk st (by rw [h]; rfl), st, h⟩
  | cached c =>
    intro k hk st r h
    simp only [Setting.apply] at h ⊢
    exact applyCached_restores c st k hk r h
  | textureSetting i t =>
    intro k hk st r h
    simp only [Setting.apply] at h ⊢
    exact applyTexture_restores i t st k hk r h
  | textureFilterSetting t f =>
    intro k hk st r h
    simp only [Setting.apply] at h ⊢
    cases ho1 : (t.set_filter f st).result with
    | none =>
      simp only [ho1] at h
      exact Option.noConfusion h
    | some u =>
      simp only [ho1] at h ⊢
      cases ho : (k (t.set_filter f st).state).result with
      | none =>
        simp only [ho] at h
        exact Option.noConfusion h
      | some r0 =>
        simp only [ho] at h ⊢
        cases ho2 : (t.set_filter (t.filter st) (k (t.set_filter f st).state).state).result with
        | none =>
          simp only [ho2] at h
          exact Option.noConfusion h
        | some u2 =>
          simp only [ho2] at h ⊢
          have hr : r0 = r := Option.some.inj h
          refine ⟨?_, (t.set_filter f st).state, by rw [ho, hr]⟩
          have h1 := set_filter_preserves_cache t f st (by rw [ho1]; rfl)
          have h2 := hk (t.set_filter f st).state (by rw [ho]; rfl)
          have h3 := set_filter_preserves_cache t (t.filter st)
            (k (t.set_filter f st).state).state (by rw [ho2]; rfl)
          rw [h3, h2, h1]
  | composed s1 s2 ih1 ih2 =>
    intro k hk st r h
    simp only [Setting.apply] at h ⊢
    have hk2 : cachePreserving (fun st1 => s2.apply st1 k) := by
      intro st1 hs
      obtain ⟨r0, hr0⟩ := Option.isSome_iff_exists.mp hs
      exact (ih2 k hk st1 r0 hr0).1
    obtain ⟨hcache, stMid1, hmid⟩ := ih1 _ hk2 st r h
    obtain ⟨_, stMid2, hmid2⟩ := ih2 k hk stMid1 r hmid
    exact ⟨hcache, stMid2, hmid2⟩

/-- When a setting is built only from cache-backed aspects and every
requested value equals the cached one, `apply` is exactly the work
closure: no context call, no cache write. -/
theorem matches_apply_eq {R : Type} (s : Setting) :
    ∀ (st : GlState) (k : Kont R), matchesCache s st.cache → s.apply st k = k st := by
  induction s with
  | empty =>
    intro st k _
    rfl
  | cached c =>
    intro st k hm
    simp only [matchesCache] at hm
    simp only [Setting.apply, applyCached]
    rw [if_pos hm]
  | textureSetting i t =>
    intro st k hm
    simp only [matchesCache] at hm
  | textureFilterSetting t f =>
    intro st k hm
    simp only [matchesCache] at hm
  | composed s1 s2 ih1 ih2 =>
    intro st k hm
    obtain ⟨h1, h2⟩ := hm
    simp only [Setting.apply]
    rw [ih1 st _ h1]
    exact ih2 st k h2

/-- A texture and a state whose cache records that texture as bound at
unit 2, used as concrete counterexample input. -/
def texA : Texture :=
  { handle := 7, width := 1, height := 1, data_type := .byte, format := .rgba }

/-- A state whose cache holds `texA` in texture slot 2 and is otherwise
at the defaults. -/
def stWithTexA : GlState :=
  { cache := { SettingsCache.default with
      textures := (List.replicate 16 (none : Option Texture)).set 2 (some texA) }
    filters := fun _ => .linear }

/-! ### Claim C1 -/

/-- C1 (counterexample): the texture-binding aspect does not no-op on a
cache hit. With `texA` already recorded as bound at unit 2, applying
`TextureSetting { index: 2, texture: Some(texA) }` around a callback that
itself does nothing still issues two `bind_texture` calls to the context
(and two cache writes), contradicting the claim that every aspect kind
issues zero context calls when the requested value equals the cached
one. -/
theorem C1_counterexample :
    (stWithTexA.cache.textures[2]? = some (some texA))
    ∧ ((Setting.textureSetting 2 (some texA)).apply stWithTexA
          (fun st => (⟨st, [], some 0⟩ : Outcome Nat))).calls =
        [GlCall.bind_texture (GL_TEXTURE0 + 2) (some 7),
         GlCall.bind_texture (GL_TEXTURE0 + 2) (some 7)] :=
  ⟨rfl, rfl⟩

/-- C1 (amended): for every setting built from `EmptySetting`, the four
cache-backed aspects (blend, depth test, active texture unit, array
buffer) and composition, applying it when each requested value equals
the cache's current value for that aspect runs the work closure directly:
no context call is issued and the cache is not written. (The
texture-binding aspect is excluded: its `apply` never compares against
the cache — see the counterexample.) -/
theorem C1_noop_on_cache_hit {R : Type} (s : Setting) (st : GlState) (k : Kont R)
    (hm : matchesCache s st.cache) : s.apply st k = k st :=
  matches_apply_eq s st k hm

/-- C1 witness: a blend-off setting applied over the default cache (whose
blend is off) is exactly the work closure. -/
theorem C1_witness :
    matchesCache (.cached (.blend false)) (Gl.new (fun _ => .linear)).cache
    ∧ (Setting.cached (.blend false)).apply (Gl.new (fun _ => .linear))
        (fun st => (⟨st, [GlCall.enable GL_BLEND], some 5⟩ : Outcome Nat)) =
      ⟨Gl.new (fun _ => .linear), [GlCall.enable GL_BLEND], some 5⟩ :=
  ⟨rfl, C1_noop_on_cache_hit (.cached (.blend false)) (Gl.new (fun _ => .linear)) _ rfl⟩

/-! ### Claim C2 -/

/-- C2: for every Setting `S`, every state, and every cache-preserving
work closure (every closure built from the crate's public API preserves
the private cache on normal return), if `S.apply` returns normally then
the `SettingsCache` equals its pre-call snapshot — in particular it is
restored for every aspect `S` touched — and the returned value is a value
the work closure returned. -/
theorem C2_restoration_law {R : Type} (s : Setting) (st : GlState) (k : Kont R) (r : R)
    (hk : cachePreserving k) (h : (s.apply st k).result = some r) :
    (s.apply st k).state.cache = st.cache ∧ ∃ stMid, (k stMid).result = some r :=
  apply_restores_cache s k hk st r h

/-- C2 witness: a blend-on setting over the default cache, around a
closure returning 42, restores the cache and returns 42. -/
theorem C2_witness :
    ((Setting.cached (.blend true)).apply (Gl.new (fun _ => .linear))
        (fun st => (⟨st, [], some 42⟩ : Outcome Nat))).state.cache =
      (Gl.new (fun _ => .linear)).cache
    ∧ ∃ stMid, ((fun st => (⟨st, [], some 42⟩ : Outcome Nat)) stMid).result = some 42 :=
  C2_restoration_law (.cached (.blend true)) (Gl.new (fun _ => .linear)) _ 42
    (fun _ _ => rfl) rfl

/-! ### Claim C3 -/

/-- C3 (counterexample): restoration is implemented as plain statements
after `callback()`, not as a scope guard, so it does not run on a panic.
Applying blend-on over the default (blend-off) cache around a panicking
closure leaves the cache with blend still on and the issued call sequence
is just `[enable(BLEND)]` — neither the cache nor the call sequence ends
restored to the pre-call state. -/
theorem C3_counterexample :
    ((Gl.new (fun _ => .linear)).cache.blend = false)
    ∧ (((Setting.cached (.blend true)).apply (Gl.new (fun _ => .linear))
          (fun st => (⟨st, [], none⟩ : Outcome Nat))).state.cache.blend = true)
    ∧ (((Setting.cached (.blend true)).apply (Gl.new (fun _ => .linear))
          (fun st => (⟨st, [], none⟩ : Outcome Nat))).calls = [GlCall.enable GL_BLEND])
    ∧ (((Setting.cached (.blend true)).apply (Gl.new (fun _ => .linear))
          (fun st => (⟨st, [], none⟩ : Outcome Nat))).result = none) :=
  ⟨rfl, rfl, rfl, rfl⟩

/-- C3 (amended): restoration runs only on the normal-return path. The
executor restores by plain statements after the work call, so when the
work closure exits abnormally, no restoring context call is issued and no
cache write-back happens: the final state is exactly the state the
closure left (with the newly set value still cached) and the trace is the
set call followed by the closure's calls, with no restore call. -/
theorem C3_no_restore_on_abnormal_exit {R : Type} (c : CachedSetting) (st : GlState) (k : Kont R)
    (hne : c ≠ c.get_cached st.cache)
    (hpanic : (k { st with cache := c.set_cached st.cache }).result = none) :
    (Setting.cached c).apply st k =
      { state := (k { st with cache := c.set_cached st.cache }).state
        calls := c.setCalls ++ (k { st with cache := c.set_cached st.cache }).calls
        result := none } := by
  simp only [Setting.apply, applyCached]
  rw [if_neg hne]
  simp only [hpanic]

/-- C3 witness: the amended theorem at blend-on over the default cache
with a panicking closure. -/
theorem C3_witness :
    ((Setting.cached (.blend true)).apply (Gl.new (fun _ => .linear))
        (fun st => (⟨st, [], none⟩ : Outcome Nat))).calls = [GlCall.enable GL_BLEND] := by
  have h := C3_no_restore_on_abnormal_exit (.blend true) (Gl.new (fun _ => .linear))
    (fun st => (⟨st, [], none⟩ : Outcome Nat)) (by decide) rfl
  rw [h]
  rfl

/-! ### Claim C4 -/

/-- The change branch of the generic cached executor, as one equation:
when the requested value differs from the cache and the closure returns
normally, the issued calls are `set(new)`, the closure's calls, then
`set(old)`, and the result is the closure's. -/
theorem applyCached_change_calls {R : Type} (s : CachedSetting) (st : GlState) (k : Kont R)
    (hne : s ≠ s.get_cached st.cache) (r : R)
    (hres : (k { st with cache := s.set_cached st.cache }).result = some r) :
    (applyCached s st k).calls =
      s.setCalls ++ (k { st with cache := s.set_cached st.cache }).calls
        ++ (s.get_cached st.cache).setCalls
    ∧ (applyCached s st k).result = some r := by
  simp only [applyCached]
  rw [if_neg hne]
  simp only [hres]
  exact ⟨trivial, trivial⟩

/-- C4: for `ComposedSetting(A, B)` over two distinct cache-backed
aspects, with a work closure issuing calls `kc`: when both requested
values differ from the (pre-call) cache, the context call sequence is
`A.set(new), B.set(new), kc, B.set(old), A.set(old)`; when `A`'s
requested value equals the cache (only `B` differs), the sequence is
`B.set(new), kc, B.set(old)` with no calls attributable to `A` — indeed
the whole application equals applying `B` alone. -/
theorem C4_composition_order {R : Type} (a b : CachedSetting) (st : GlState)
    (g : GlState → GlState) (kc : List GlCall) (r : R)
    (hkind : a.kind ≠ b.kind) :
    (a ≠ a.get_cached st.cache → b ≠ b.get_cached st.cache →
      ((Setting.composed (.cached a) (.cached b)).apply st
          (fun st1 => ⟨g st1, kc, some r⟩)).calls =
        a.setCalls ++ b.setCalls ++ kc ++ (b.get_cached st.cache).setCalls
          ++ (a.get_cached st.cache).setCalls)
    ∧ (a = a.get_cached st.cache →
      ((Setting.composed (.cached a) (.cached b)).apply st
          (fun st1 => ⟨g st1, kc, some r⟩)) =
        (Setting.cached b).apply st (fun st1 => ⟨g st1, kc, some r⟩)
      ∧ (b ≠ b.get_cached st.cache →
        ((Setting.composed (.cached a) (.cached b)).apply st
            (fun st1 => ⟨g st1, kc, some r⟩)).calls =
          b.setCalls ++ kc ++ (b.get_cached st.cache).setCalls)) := by
  constructor
  · intro hA hB
    have hOldB : b.get_cached (a.set_cached st.cache) = b.get_cached st.cache :=
      get_cached_set_cached_of_kind_ne a b st.cache hkind
    have hinner := applyCached_change_calls b { st with cache := a.set_cached st.cache }
      (fun st1 => (⟨g st1, kc, some r⟩ : Outcome R))
      (by
        show b ≠ b.get_cached (a.set_cached st.cache)
        rw [hOldB]
        exact hB) r rfl
    have houter := applyCached_change_calls a st
      (fun st1 => applyCached b st1 (fun st2 => (⟨g st2, kc, some r⟩ : Outcome R)))
      hA r hinner.2
    show (applyCached a st
      (fun st1 => applyCached b st1 (fun st2 => (⟨g st2, kc, some r⟩ : Outcome R)))).calls = _
    rw [houter.1, hinner.1, hOldB]
    simp [List.append_assoc]
  · intro hA
    have hnoop : (Setting.composed (.cached a) (.cached b)).apply st
        (fun st1 => (⟨g st1, kc, some r⟩ : Outcome R)) =
        (Setting.cached b).apply st (fun st1 => (⟨g st1, kc, some r⟩ : Outcome R)) := by
      show (Setting.cached a).apply st _ = _
      exact matches_apply_eq (.cached a) st _ hA
    refine ⟨hnoop, fun hB => ?_⟩
    rw [hnoop]
    have hinner := applyCached_change_calls b st
      (fun st1 => (⟨g st1, kc, some r⟩ : Outcome R)) hB r rfl
    show (applyCached b st _).calls = _
    rw [hinner.1]

/-- C4 witness: blend-on composed with depth-on over the default cache
(both differ) yields enable(BLEND), enable(DEPTH_TEST), the work's calls,
disable(DEPTH_TEST), disable(BLEND); and with blend-off outer (equal to
cache) the application is exactly the depth-test application. -/
theorem C4_witness :
    ((Setting.composed (.cached (.blend true)) (.cached (.depthTest true))).apply
        (Gl.new (fun _ => .linear)) (fun st1 => (⟨st1, [], some 1⟩ : Outcome Nat))).calls =
      [GlCall.enable GL_BLEND, GlCall.enable GL_DEPTH_TEST,
       GlCall.disable GL_DEPTH_TEST, GlCall.disable GL_BLEND] := by
  have h := (C4_composition_order (.blend true) (.depthTest true) (Gl.new (fun _ => .linear))
    (fun st1 => st1) [] 1 (by decide)).1 (by decide) (by decide)
  rw [h]
  rfl

/-! ### Claim C5 -/

/-- C5: equality of resource wrappers (`Texture` / `ArrayBuffer`) and of
the Setting payloads built from them is determined solely by the
context-side handle: two wrappers compare equal iff their handles are
equal, regardless of any other wrapper metadata (width, height, pixel
type, pixel format, filter). -/
theorem C5_equality_by_handle :
    (∀ a b : Texture, Texture.eqByHandle a b = true ↔ a.handle = b.handle)
    ∧ (∀ a b : ArrayBuffer, ArrayBuffer.eqByHandle a b = true ↔ a.handle = b.handle)
    ∧ (∀ (i : Nat) (t1 t2 : Texture),
        textureSettingEq i (some t1) i (some t2) = true ↔ t1.handle = t2.handle)
    ∧ (∀ a b : ArrayBuffer,
        arrayBufferSettingEq (some a) (some b) = true ↔ a.handle = b.handle) := by
  refine ⟨fun a b => ?_, fun a b => ?_, fun i t1 t2 => ?_, fun a b => ?_⟩ <;>
    simp [Texture.eqByHandle, ArrayBuffer.eqByHandle, textureSettingEq, optTextureEq,
      arrayBufferSettingEq]

/-- C5 witness: two texture wrappers with the same handle but entirely
different metadata compare equal. -/
theorem C5_witness :
    Texture.eqByHandle
      { handle := 5, width := 1, height := 2, data_type := .byte, format := .rgba }
      { handle := 5, width := 9, height := 9, data_type := .float, format := .alpha } = true :=
  (C5_equality_by_handle.1 _ _).mpr rfl

/-! ### Claim C6 -/

/-- Recognizes `tex_parameteri` calls in a trace. -/
def isTexParam : GlCall → Bool
  | .tex_parameteri _ _ _ => true
  | _ => false

/-- C6: with the texture's cached filter cell holding `F = t.filter st`,
`set_filter(F)` issues zero context calls and changes nothing;
`set_filter(G)` for `G ≠ F` issues exactly two `tex_parameteri` calls
(mag then min, both with `G`'s value) and updates the cached filter cell
to `G`; and an immediately subsequent `set_filter(G)` issues zero context
calls and changes nothing. -/
theorem C6_filter_change (t : Texture) (st : GlState) (g : TextureFilter)
    (hg : g ≠ t.filter st) (hlen : 0 < st.cache.textures.length) :
    (t.set_filter (t.filter st) st = ⟨st, [], some ()⟩)
    ∧ ((t.set_filter g st).calls.filter isTexParam =
        [GlCall.tex_parameteri GL_TEXTURE0 GL_TEXTURE_MAG_FILTER g.toValue,
         GlCall.tex_parameteri GL_TEXTURE0 GL_TEXTURE_MIN_FILTER g.toValue])
    ∧ ((t.set_filter g st).state.filters t.handle = g)
    ∧ (t.set_filter g ((t.set_filter g st).state) =
        ⟨(t.set_filter g st).state, [], some ()⟩) := by
  have hne2 : t.filter st ≠ g := fun h => hg h.symm
  obtain ⟨prev, hprev⟩ : ∃ p, st.cache.textures[0]? = some p :=
    ⟨st.cache.textures[0], List.getElem?_eq_getElem hlen⟩
  have h3 : (t.set_filter g st).state.filters t.handle = g := by
    rw [Texture.set_filter, if_pos hne2, applyTexture]
    simp only [hprev]
    simp [setFilterCell]
  refine ⟨by simp [Texture.set_filter], ?_, h3, ?_⟩
  · rw [Texture.set_filter, if_pos hne2, applyTexture]
    simp only [hprev]
    simp [isTexParam]
  · rw [Texture.set_filter, if_neg (by simp [Texture.filter, h3])]

/-- C6 witness: on a fresh state with every filter cell `Linear`, the
filter cell of `texA` after `set_filter(Nearest)` holds `Nearest`. -/
theorem C6_witness :
    (texA.set_filter .nearest (Gl.new (fun _ => .linear))).state.filters texA.handle = .nearest :=
  (C6_filter_change texA (Gl.new (fun _ => .linear)) .nearest (by decide) (by decide)).2.2.1

/-! ### Claim C7 -/

/-- C7: writing bytes to buffer `b1` while a different buffer `b2` is
recorded as the bound array-buffer issues, in order, a bind of `b1`, the
upload call, and a re-bind of `b2`; afterwards the whole state (in
particular the cache's array-buffer slot, pointing at `b2`) is exactly as
before the write, and the last bind call on the context names `b2`. -/
theorem C7_buffer_write (b1 b2 : ArrayBuffer) (st : GlState) (len : Nat) (usage : BufferUsage)
    (hne : b1.handle ≠ b2.handle) (hcache : st.cache.array_buffer = some b2) :
    b1.write len usage st =
      { state := st
        calls := [GlCall.bind_buffer GL_ARRAY_BUFFER (some b1.handle),
                  GlCall.buffer_data GL_ARRAY_BUFFER len usage.toValue,
                  GlCall.bind_buffer GL_ARRAY_BUFFER (some b2.handle)]
        result := some () } := by
  have hne2 : (CachedSetting.arrayBuffer (some b1)) ≠
      (CachedSetting.arrayBuffer (some b1)).get_cached st.cache := by
    simp only [CachedSetting.get_cached, hcache]
    intro h
    apply hne
    cases h
    rfl
  show applyCached (.arrayBuffer (some b1)) st
    (fun st1 => ⟨st1, [GlCall.buffer_data GL_ARRAY_BUFFER len usage.toValue], some ()⟩) = _
  simp only [applyCached]
  rw [if_neg hne2]
  have hrestore := set_cached_get_cached (CachedSetting.arrayBuffer (some b1)) st.cache
  simp only [CachedSetting.get_cached, CachedSetting.set_cached, CachedSetting.setCalls,
    hcache] at hrestore ⊢
  simp [hrestore]

/-- C7 witness: with buffer 3 cached as bound, writing through buffer 2
binds 2, uploads, rebinds 3, and returns the state unchanged. -/
theorem C7_witness :
    ArrayBuffer.write { handle := 2 } 10 .static
      { cache := { SettingsCache.default with array_buffer := some { handle := 3 } }
        filters := fun _ => .linear } =
      { state := { cache := { SettingsCache.default with array_buffer := some { handle := 3 } }
                   filters := fun _ => .linear }
        calls := [GlCall.bind_buffer GL_ARRAY_BUFFER (some 2),
                  GlCall.buffer_data GL_ARRAY_BUFFER 10 BufferUsage.static.toValue,
                  GlCall.bind_buffer GL_ARRAY_BUFFER (some 3)]
        result := some () } :=
  C7_buffer_write { handle := 2 } { handle := 3 } _ 10 .static (by decide) rfl

/-! ### Claim C8 -/

/-- C8: a freshly constructed context wrapper's cache has blend disabled,
depth test disabled, active texture unit 0, no array buffer bound, and no
texture bound in any of its 16 per-unit slots. -/
theorem C8_fresh_cache_defaults (f : Nat → TextureFilter) :
    (Gl.new f).cache.blend = false
    ∧ (Gl.new f).cache.depth = false
    ∧ (Gl.new f).cache.active_texture = 0
    ∧ (Gl.new f).cache.array_buffer = none
    ∧ (Gl.new f).cache.textures.length = 16
    ∧ ∀ i : Nat, i < 16 → (Gl.new f).cache.textures[i]? = some none := by
  refine ⟨rfl, rfl, rfl, rfl, rfl, fun i hi => ?_⟩
  have hi2 : i < (List.replicate 16 (none : Option Texture)).length := by
    simpa using hi
  show (List.replicate 16 (none : Option Texture))[i]? = some none
  rw [List.getElem?_eq_getElem hi2, List.getElem_replicate]

/-- C8 witness: slot 3 of a fresh cache holds no texture. -/
theorem C8_witness :
    (Gl.new (fun _ => .linear)).cache.textures[3]? = some none :=
  (C8_fresh_cache_defaults (fun _ => .linear)).2.2.2.2.2 3 (by decide)

/-! ### Claim C9 -/

/-- C9: applying a texture-binding Setting whose unit index is outside
the 16-slot range panics on the out-of-range slot access as its very
first step: the outcome is a panic with the state unchanged and zero
context calls issued — the cache is never corrupted. -/
theorem C9_out_of_range_unit {R : Type} (index : Nat) (t : Option Texture) (st : GlState)
    (k : Kont R) (hlen : st.cache.textures.length = 16) (hidx : 16 ≤ index) :
    (Setting.textureSetting index t).apply st k =
      { state := st, calls := [], result := none } := by
  have hnone : st.cache.textures[index]? = none := by
    apply List.getElem?_eq_none
    rw [hlen]
    exact hidx
  simp only [Setting.apply, applyTexture, hnone]

/-- C9 witness: requesting unit 16 on a fresh cache panics with no cache
mutation and no context call. -/
theorem C9_witness :
    (Setting.textureSetting 16 (some texA)).apply (Gl.new (fun _ => .linear))
        (fun st => (⟨st, [], some 0⟩ : Outcome Nat)) =
      { state := Gl.new (fun _ => .linear), calls := [], result := none } :=
  C9_out_of_range_unit 16 (some texA) (Gl.new (fun _ => .linear)) _ (by decide) (by decide)

/-! ### Claim C10 -/

/-- C10: `Texture::new` performs its initial upload inside a scoped
texture binding at unit 0, so every creation call over a well-formed
cache returns normally with the new wrapper, and the settings cache after
the call — in particular the bound-texture slot for unit 0 — equals its
value before the call: the new texture is not left recorded as bound
anywhere. -/
theorem C10_texture_new_restores (handle width height : Nat) (dt : TextureType)
    (fmt : TextureFormat) (content : TextureContent) (st : GlState)
    (hlen : 0 < st.cache.textures.length) :
    (Texture.new handle width height dt fmt content st).result =
      some { handle := handle, width := width, height := height, data_type := dt, format := fmt }
    ∧ (Texture.new handle width height dt fmt content st).state.cache = st.cache := by
  obtain ⟨prev, hprev⟩ : ∃ p, st.cache.textures[0]? = some p :=
    ⟨st.cache.textures[0], List.getElem?_eq_getElem hlen⟩
  simp only [Texture.new, Gl.settings, Setting.texture, Setting.apply, setFilterCell]
  rw [applyTexture]
  simp only [hprev]
  constructor
  · rfl
  · simp only [List.set_set, list_set_self _ _ _ hprev]

/-- C10 witness: creating a 2x2 byte RGBA texture with no initial
content over a fresh state returns the wrapper and leaves the cache
exactly at the defaults. -/
theorem C10_witness :
    (Texture.new 9 2 2 .byte .rgba .none (Gl.new (fun _ => .linear))).state.cache =
      (Gl.new (fun _ => .linear)).cache :=
  (C10_texture_new_restores 9 2 2 .byte .rgba .none (Gl.new (fun _ => .linear)) (by decide)).2

end Rwgl
